import Mathlib

/-!
Shallow embedding of the JokesBot repository (app.py, analytics.py).

The ask endpoint (app.py, ask_ai) is modelled as a pure function from an
environment (corpus, semantic index, language model, randomness source) and
the user message to a result together with the chronological list of
analytics events written through the Analytics sink (analytics.py).

External collaborators are modelled as follows:
  - load_jokes() is the corpus field of the environment;
  - collection.query(query_texts=[q], n_results=n) is the search field,
    returning the documents[0] list on success and the exception text on
    failure (Except.error);
  - chat_client.chat.completions.create followed by the emptiness check on
    response.choices[0].message.content is the llm field: Except.error is a
    raised exception, Except.ok none is an empty/absent content (which the
    source turns into a raised ValueError), Except.ok (some s) is content s;
  - random.choice(all_jokes) is modelled by the randIdx field: the chosen
    element is the one at position randIdx % len(all_jokes), which is a
    uniformly random position when randIdx is uniformly random.

String operations are modelled on the character list underlying a String;
Python semantics (lower, strip, split, substring membership, isdigit on
ASCII input) are reproduced by the helper functions below.
-/

namespace JokesBot

/-- Python list-prefix test: needle is an initial segment of hay. -/
def listStartsWith : List Char → List Char → Bool
  | [], _ => true
  | _ :: _, [] => false
  | c :: cs, d :: ds => c = d && listStartsWith cs ds

/-- Occurrence of needle anywhere in hay, the semantics of the Python
operator needle in hay on strings (the empty needle always occurs). -/
def listHasSub (needle : List Char) : List Char → Bool
  | [] => listStartsWith needle []
  | hay@(_ :: tl) => listStartsWith needle hay || listHasSub needle tl

/-- Python needle in hay for strings. -/
def inStr (needle hay : String) : Bool :=
  listHasSub needle.data hay.data

/-- Python str.lower(), character by character (ASCII case folding). -/
def lowerStr (s : String) : String :=
  String.mk (s.data.map Char.toLower)

/-- Python str.strip(): remove leading and trailing whitespace. -/
def trimStr (s : String) : String :=
  String.mk (((s.data.dropWhile Char.isWhitespace).reverse.dropWhile Char.isWhitespace).reverse)

/-- Python str.endswith(suffix). -/
def endsWithStr (s suffix : String) : Bool :=
  listStartsWith suffix.data.reverse s.data.reverse

/-- Python selected.split(<comma>): split at every comma, keeping empty pieces. -/
def splitComma : List Char → List Char → List String
  | [], acc => [String.mk acc.reverse]
  | c :: cs, acc =>
    if c = ',' then String.mk acc.reverse :: splitComma cs [] else splitComma cs (c :: acc)

/-- Python str.isdigit() restricted to ASCII content: nonempty and all digits. -/
def pyIsDigit (cs : List Char) : Bool :=
  !cs.isEmpty && cs.all Char.isDigit

/-- Decimal value of a digit string, the value of Python int() on it. -/
def decNat (cs : List Char) : Nat :=
  cs.foldl (fun n c => n * 10 + (c.toNat - 48)) 0

/-- A corpus record (one entry of jokes.json). Values of dict keys absent in
the JSON are the empty string, matching the .get defaults used by app.py. -/
structure Joke where
  id : Int
  jtype : String
  category : String
  joke : String
  setup : String
  delivery : String
deriving DecidableEq, Repr, Inhabited

/-- Rendering of Python str(dict) on a joke record, reached by format_joke
only for records whose type is neither single nor twopart. -/
def pyStr (j : Joke) : String :=
  "\x7b\x27category\x27: \x27" ++ j.category ++ "\x27, \x27type\x27: \x27" ++ j.jtype ++
    "\x27, \x27joke\x27: \x27" ++ j.joke ++ "\x27, \x27setup\x27: \x27" ++ j.setup ++
    "\x27, \x27delivery\x27: \x27" ++ j.delivery ++ "\x27, \x27id\x27: " ++ toString j.id ++ "\x7d"

/-- format_joke from app.py: the joke field for type single, setup and
delivery joined by one space for type twopart, str(joke) otherwise. -/
def format_joke (j : Joke) : String :=
  if j.jtype = "single" then j.joke
  else if j.jtype = "twopart" then j.setup ++ " " ++ j.delivery
  else pyStr j

/-- The result reconciler: the inner loop of app.py that scans all_jokes and
keeps the first record whose derived text equals the document, or none. -/
def reconcile (all_jokes : List Joke) (doc : String) : Option Joke :=
  all_jokes.find? (fun j => format_joke j == doc)

/-- Outcome classification stored in the response_type field of a query
event (analytics.py, log_query). -/
inductive Outcome where
  | success
  | no_results
  | error
  | nsfw_blocked
deriving DecidableEq, Repr

/-- A JSON scalar, used for the fields of the feedback endpoint. -/
inductive JVal where
  | jnull
  | jbool (b : Bool)
  | jnum (n : Int)
  | jstr (s : String)
deriving DecidableEq, Repr

/-- Python truthiness of a JSON scalar. -/
def truthy : JVal → Bool
  | .jnull => false
  | .jbool b => b
  | .jnum n => n != 0
  | .jstr s => s != ""

/-- Python not applied to data.get(key): true when the key is absent or its
value is falsy. -/
def pyNot : Option JVal → Bool
  | none => true
  | some v => !truthy v

/-- One analytics event, in the shape written by analytics.py
(log_query, log_llm_failure, log_feedback). Timestamps and response times
are wall-clock data and are not modelled. -/
inductive Event where
  | query (user_message : String) (response_type : Outcome)
      (jokes_count : Nat) (error : Option String)
  | llm_failure (error_type : String) (error_message : String) (fallback_used : String)
  | feedback (query_id : Option JVal) (rating : JVal) (comment : JVal)
deriving DecidableEq, Repr

/-- Whether an event is a query event (event_type == query). -/
def isQueryEvent : Event → Bool
  | .query _ _ _ _ => true
  | _ => false

/-- Result of the ask endpoint: a JSON body with response text and joke
list, or an HTTP error status with an error message. -/
inductive AskResult where
  | ok (response : String) (jokes : List Joke)
  | err (status : Nat) (error : String)
deriving DecidableEq, Repr

/-- Environment of one request: the corpus (load_jokes), the semantic index
(collection.query, by query text and n_results), the language model, and
the randomness consumed by random.choice. -/
structure Env where
  corpus : List Joke
  search : String → Nat → Except String (List String)
  llm : String → Except String (Option String)
  randIdx : Nat

/-- Content of a model response after the validity check of app.py: a raised
error keeps its text, and missing choices or empty content become the raised
ValueError with the fixed message. -/
def llmText (env : Env) (prompt : String) : Except String String :=
  match env.llm prompt with
  | .error e => .error e
  | .ok none => .error "Empty response from AI model"
  | .ok (some c) => .ok c

/-- random.choice(all_jokes), driven by the randomness index of the
environment: the element at a uniformly random position. -/
def randomChoice (r : Nat) (all_jokes : List Joke) : Joke :=
  all_jokes.getD (r % all_jokes.length) default

/-- The fixed denylist of app.py. -/
def nsfw_keywords : List String :=
  ["nsfw", "inappropriate", "explicit", "adult", "dirty", "sexual"]

/-- Safety filter test: some denylisted term occurs in the lowered message. -/
def isNsfw (msg : String) : Bool :=
  nsfw_keywords.any (fun k => inStr k (lowerStr msg))

/-- Counting-branch cue test of app.py. -/
def isCountingMsg (msg : String) : Bool :=
  inStr "how many" (lowerStr msg) || inStr "count" (lowerStr msg)

/-- Existence-branch cue words of app.py. -/
def existence_cues : List String :=
  ["are there", "do you have", "is there", "any"]

/-- Existence-branch test: stripped message ends with a question mark and
some cue word occurs in the lowered message. -/
def isExistenceMsg (msg : String) : Bool :=
  endsWithStr (trimStr msg) "?" && existence_cues.any (fun w => inStr w (lowerStr msg))

/-- Python Char class backslash-w on ASCII input: letters, digits, underscore. -/
def isWordChar (c : Char) : Bool :=
  c.isAlphanum || c = '_'

/-- re.search of the pattern how many followed by a word group, on a
character list: leftmost position where the literal how-many-space prefix is
followed by at least one word character; the group is the maximal run of
word characters there. -/
def findHowMany : List Char → Option String
  | [] => none
  | s@(_ :: tl) =>
    if listStartsWith ("how many ".data) s then
      let w := (s.drop 9).takeWhile isWordChar
      if w.isEmpty then findHowMany tl else some (String.mk w)
    else findHowMany tl

/-- Keyword-extraction fallback of the counting branch: the regex group on
the lowered message, or the literal unknown. -/
def fallbackTopic (msg : String) : String :=
  (findHowMany (lowerStr msg).data).getD "unknown"

/-- Prompt built by the counting branch. -/
def countPrompt (msg : String) : String :=
  "Analyze this question: \"" ++ msg ++ "\"\n\n" ++
  "The user is asking about the count of jokes in a specific category or topic.\n" ++
  "Based on the question, what category or topic are they asking about?\n" ++
  "Return ONLY the category/topic name (e.g., \"physics\", \"programming\", \"christmas\", \"misc\").\n" ++
  "If unclear, return \"unknown\"."

/-- Topic extraction of the counting branch: the index is queried and the
model asked inside one try block, so a failure of either routes to the
regex fallback; otherwise the topic is the stripped, lowered content. -/
def countingTopic (env : Env) (msg : String) : String :=
  match env.search msg env.corpus.length with
  | .error _ => fallbackTopic msg
  | .ok _ =>
    match llmText env (countPrompt msg) with
    | .error _ => fallbackTopic msg
    | .ok content => lowerStr (trimStr content)

/-- Records matching a topic in the counting branch: topic occurs in the
lowered category or in the lowered derived text. -/
def countingMatches (all_jokes : List Joke) (topic : String) : List Joke :=
  all_jokes.filter (fun j =>
    inStr topic (lowerStr j.category) || inStr topic (lowerStr (format_joke j)))

/-- The counting branch of ask_ai. -/
def countingBranch (env : Env) (msg : String) : AskResult × List Event :=
  let topic := countingTopic env msg
  let matching := countingMatches env.corpus topic
  if matching.length > 0 then
    (.ok ("I have " ++ toString matching.length ++ " " ++ topic ++ " joke" ++
          (if matching.length != 1 then "s" else "") ++ " in my collection.")
       (matching.take 3),
     [.query msg .success (matching.take 3).length none])
  else
    (.ok ("I have 0 " ++ topic ++ " jokes in my collection.") [],
     [.query msg .no_results 0 none])

/-- The existence branch of ask_ai. It writes no analytics event on any of
its paths. -/
def existenceBranch (env : Env) (msg : String) : AskResult × List Event :=
  match env.search msg 10 with
  | .error _ =>
    (.ok "I\x27m having trouble searching the joke collection. Please try again." [], [])
  | .ok docs =>
    if docs.isEmpty then
      (.ok "No, I don\x27t have any jokes matching that description in my collection." [], [])
    else
      let matching := (docs.take 5).filterMap (reconcile env.corpus)
      if matching.isEmpty then
        (.ok "No, I don\x27t have any jokes matching that description in my collection." [], [])
      else
        (.ok ("Yes, I found " ++ toString matching.length ++ " joke" ++
              (if matching.length != 1 then "s" else "") ++
              " matching your query. Here are some examples:")
           (matching.take 3),
         [])

/-- Numbered candidate lines of the recommendation prompt (enumerate,
1-based display). -/
def numberDocs (i : Nat) : List String → List String
  | [] => []
  | d :: ds => ("Joke " ++ toString (i + 1) ++ ": " ++ d) :: numberDocs (i + 1) ds

/-- Python sep.join on a list of strings. -/
def joinSep (sep : String) : List String → String
  | [] => ""
  | [x] => x
  | x :: xs => x ++ sep ++ joinSep sep xs

/-- Prompt built by the recommendation branch. -/
def recPrompt (msg : String) (docs : List String) : String :=
  "You are a helpful assistant that recommends jokes based on user requests.\n\n" ++
  "User request: " ++ msg ++ "\n\n" ++
  "Here are some relevant jokes from the collection:\n" ++
  joinSep "\n\n" (numberDocs 0 docs) ++ "\n\n" ++
  "Based on the user\x27s request, select the joke number(s) that best match what they\x27re asking for.\n" ++
  "Return ONLY the joke number(s) separated by commas (e.g., \"1\" or \"1,3,5\").\n" ++
  "If none match well, return \"none\"."

/-- Parsed selection: comma pieces that are digit strings after stripping,
each converted to a 0-based index (possibly negative for the piece 0). -/
def parseIndices (selected : String) : List Int :=
  (splitComma selected.data []).filterMap (fun num =>
    let t := trimStr num
    if pyIsDigit t.data then some ((decNat t.data : Int) - 1) else none)

/-- Jokes selected by index: indices outside the document range are skipped,
in-range documents are reconciled and kept when a record is found. -/
def selectJokes (all_jokes : List Joke) (docs : List String) (idxs : List Int) : List Joke :=
  idxs.filterMap (fun (idx : Int) =>
    if idx < 0 then none
    else
      match docs.get? idx.toNat with
      | none => none
      | some doc => reconcile all_jokes doc)

/-- Outer fallback of the recommendation branch (the except arm around the
model call): record an llm_failure event, re-query the index for 3
documents and reconcile each; if that re-query raises, record an error
query event and answer with one randomly chosen record. -/
def recOuterFallback (env : Env) (msg : String) (errMsg : String) : AskResult × List Event :=
  match env.search msg 3 with
  | .ok docs =>
    let fallback_jokes := docs.filterMap (reconcile env.corpus)
    (.ok "Here\x27s what I found for you:" fallback_jokes,
     [.llm_failure "llm_selection_error" errMsg "chromadb_direct",
      .query msg .success fallback_jokes.length none])
  | .error e2 =>
    (.ok "I\x27m having trouble processing your request. Here\x27s a random joke instead:"
       (if env.corpus.isEmpty then [] else [randomChoice env.randIdx env.corpus]),
     [.llm_failure "llm_selection_error" errMsg "chromadb_direct",
      .query msg .error 0 (some e2)])

/-- The recommendation branch of ask_ai, the default branch. -/
def recommendBranch (env : Env) (msg : String) : AskResult × List Event :=
  match env.search msg 5 with
  | .error e => recOuterFallback env msg e
  | .ok docs =>
    if docs.isEmpty then
      (.ok "I couldn\x27t find any jokes matching your request." [],
       [.query msg .no_results 0 none])
    else
      match llmText env (recPrompt msg docs) with
      | .error e => recOuterFallback env msg e
      | .ok content =>
        let selected := trimStr content
        if lowerStr selected = "none" then
          (.ok "I couldn\x27t find a joke that matches your request perfectly. Would you like a random joke instead?" [],
           [.query msg .no_results 0 none])
        else
          let sel := selectJokes env.corpus docs (parseIndices selected)
          let sel2 :=
            if sel.isEmpty && !docs.isEmpty then
              (reconcile env.corpus (docs.headD "")).toList
            else sel
          (.ok "Here\x27s what I found for you:" sel2,
           [.query msg .success sel2.length none])

/-- ask_ai from app.py as a pure function of the request environment and the
user message, returning the HTTP-level result and the chronological list of
analytics events. -/
def ask_ai (env : Env) (user_message : String) : AskResult × List Event :=
  if user_message = "" then (.err 400 "No message provided", [])
  else if isNsfw user_message then
    (.ok "I cannot provide NSFW or inappropriate content. All jokes in my collection are filtered to exclude such content." [],
     [.query user_message .nsfw_blocked 0 none])
  else if env.corpus.isEmpty then
    (.err 500 "No jokes available in the collection", [])
  else if isCountingMsg user_message then countingBranch env user_message
  else if isExistenceMsg user_message then existenceBranch env user_message
  else recommendBranch env user_message

/-- Result of the feedback endpoint. -/
inductive FeedbackResult where
  | ok (success : Bool) (message : String)
  | err (status : Nat) (error : String)
deriving DecidableEq, Repr

/-- submit_feedback from app.py: the rating is rejected by Python truthiness,
and on acceptance one feedback event is written. The comment defaults to the
empty string when absent. -/
def submit_feedback (query_id rating comment : Option JVal) : FeedbackResult × List Event :=
  if pyNot rating then (.err 400 "Rating is required", [])
  else
    (.ok true "Thank you for your feedback!",
     [.feedback query_id (rating.getD .jnull) (comment.getD (.jstr ""))])

/-! Sample corpus records and request environments used to instantiate the
theorems below on concrete inputs. -/

/-- A sample single-type record. -/
def jA : Joke :=
  { id := 1, jtype := "single", category := "Programming",
    joke := "Why did the function stop calling back? It had too many arguments.",
    setup := "", delivery := "" }

/-- A sample twopart-type record. -/
def jB : Joke :=
  { id := 2, jtype := "twopart", category := "Pun", joke := "",
    setup := "What do you call a fish with no eyes?", delivery := "A fsh." }

/-- Two distinct records sharing one derived text. -/
def dupA : Joke :=
  { id := 10, jtype := "single", category := "Programming",
    joke := "Same joke text.", setup := "", delivery := "" }

/-- Second record with the derived text of dupA but another category. -/
def dupB : Joke :=
  { id := 11, jtype := "single", category := "Misc",
    joke := "Same joke text.", setup := "", delivery := "" }

/-- Environment whose index and model are never consulted on the paths
exercised below. -/
def envPlain : Env :=
  { corpus := [jA, jB], search := fun _ _ => .ok [], llm := fun _ => .ok none,
    randIdx := 0 }

/-- Environment whose index raises on every query. -/
def envSearchDown : Env :=
  { corpus := [jA, jB], search := fun _ _ => .error "db down",
    llm := fun _ => .ok none, randIdx := 0 }

/-! Claim theorems. -/

/-- C2: a non-empty message containing a denylisted term (case-insensitive
substring) yields the fixed refusal with an empty joke list and exactly one
nsfw_blocked query event with jokes_count 0; the result is the same for
every environment, so no semantic-index query and no language-model call
can influence it (the branch runs before both). -/
theorem c2_nsfw_short_circuit (env : Env) (msg : String)
    (hmsg : msg ≠ "") (hn : isNsfw msg = true) :
    ask_ai env msg =
      (.ok "I cannot provide NSFW or inappropriate content. All jokes in my collection are filtered to exclude such content." [],
       [.query msg .nsfw_blocked 0 none]) := by
  simp [ask_ai, hmsg, hn]

/-- Witness for C2 at the message tell me a DIRTY joke. -/
theorem c2_nsfw_short_circuit_witness :
    ask_ai envPlain "tell me a DIRTY joke" =
      (.ok "I cannot provide NSFW or inappropriate content. All jokes in my collection are filtered to exclude such content." [],
       [.query "tell me a DIRTY joke" .nsfw_blocked 0 none]) :=
  c2_nsfw_short_circuit envPlain "tell me a DIRTY joke" (by decide) (by decide)

/-- C7: in the existence branch, a raising index query is caught and the
fixed trouble-searching message is returned with an empty list and an empty
event list, so no query event is written on this path. -/
theorem c7_existence_search_failure (env : Env) (msg : String) (e : String)
    (hmsg : msg ≠ "") (hn : isNsfw msg = false) (hc : env.corpus.isEmpty = false)
    (hcnt : isCountingMsg msg = false) (hex : isExistenceMsg msg = true)
    (hs : env.search msg 10 = .error e) :
    ask_ai env msg =
      (.ok "I\x27m having trouble searching the joke collection. Please try again." [], []) := by
  simp [ask_ai, hmsg, hn, hc, hcnt, hex, existenceBranch, hs]

/-- Witness for C7 with an index that raises. -/
theorem c7_existence_search_failure_witness :
    ask_ai envSearchDown "do you have any dad jokes?" =
      (.ok "I\x27m having trouble searching the joke collection. Please try again." [], []) :=
  c7_existence_search_failure envSearchDown "do you have any dad jokes?" "db down"
    (by decide) (by decide) (by decide) (by decide) (by decide) rfl

/-- C9 counterexample: a request whose rating field is present (the number
0) is still answered with the 400 error and no feedback event, refuting the
claim that the 400 occurs exactly when the rating field is missing. -/
theorem c9_counterexample :
    (some (JVal.jnum 0)).isSome = true ∧
    submit_feedback none (some (JVal.jnum 0)) none = (.err 400 "Rating is required", []) := by
  decide

/-- C9 amended: the feedback endpoint returns the 400 error exactly when the
rating is missing or Python-falsy (null, false, 0, empty string); for a
present truthy rating it writes exactly one feedback event with the given
query id, rating and comment (comment defaulting to the empty string) and
returns the success response; on the 400 path nothing at all is logged, so
no query event is ever written for a 4xx input error. -/
theorem c9_feedback_amended (query_id rating comment : Option JVal) :
    (pyNot rating = true →
      submit_feedback query_id rating comment = (.err 400 "Rating is required", [])) ∧
    (∀ r, rating = some r → truthy r = true →
      submit_feedback query_id rating comment =
        (.ok true "Thank you for your feedback!",
         [.feedback query_id r (comment.getD (.jstr ""))])) := by
  constructor
  · intro h
    simp [submit_feedback, h]
  · rintro r rfl h
    simp [submit_feedback, pyNot, h]

/-- Witness for C9 amended at a present truthy rating. -/
theorem c9_feedback_amended_witness :
    submit_feedback (some (.jstr "q1")) (some (.jnum 4)) none =
      (.ok true "Thank you for your feedback!",
       [.feedback (some (.jstr "q1")) (.jnum 4) (.jstr "")]) :=
  (c9_feedback_amended (some (.jstr "q1")) (some (.jnum 4)) none).2 (.jnum 4) rfl (by decide)

/-- C4 counterexample: dupB is a corpus record, but reconciling its derived
text against the corpus [dupA, dupB] returns the earlier record dupA with
the same derived text, not dupB, so the round-trip identity fails on
corpora whose derived texts are not pairwise distinct. -/
theorem c4_counterexample :
    dupB ∈ [dupA, dupB] ∧ reconcile [dupA, dupB] (format_joke dupB) ≠ some dupB := by
  decide

/-- C4 amended: reconciliation returns the first corpus record whose derived
text equals the given string, so the round trip reconcile (text r) = r holds
for every corpus record r provided the derived texts of the corpus are
pairwise distinct; the derived text is the joke field for type single and
setup and delivery joined by one space for type twopart. -/
theorem c4_reconcile_roundtrip (corpus : List Joke) (r : Joke)
    (hmem : r ∈ corpus) (hnodup : (corpus.map format_joke).Nodup) :
    reconcile corpus (format_joke r) = some r ∧
    (r.jtype = "single" → format_joke r = r.joke) ∧
    (r.jtype = "twopart" → format_joke r = r.setup ++ " " ++ r.delivery) := by
  refine ⟨?_, ?_, ?_⟩
  · induction corpus with
    | nil => cases hmem
    | cons h t ih =>
      rw [List.map_cons, List.nodup_cons] at hnodup
      rcases List.mem_cons.mp hmem with rfl | hm
      · simp [reconcile]
      · have hne : format_joke h ≠ format_joke r := by
          intro hEq
          exact hnodup.1 (hEq ▸ List.mem_map_of_mem format_joke hm)
        unfold reconcile
        exact (List.find?_cons_of_neg t (by simpa using hne)).trans (ih hm hnodup.2)
  · intro h
    simp [format_joke, h]
  · intro h
    have hne : ("twopart" : String) ≠ "single" := by decide
    simp [format_joke, h, hne]

/-- Witness for C4 amended on a corpus with distinct derived texts. -/
theorem c4_reconcile_roundtrip_witness :
    reconcile [jA, jB] (format_joke jB) = some jB :=
  (c4_reconcile_roundtrip [jA, jB] jB (by decide) (by decide)).1

/-- Environment whose model raises and whose index answers the five-result
query with one reconcilable document and the three-result re-query with one
unreconcilable document. -/
def envLlmDown : Env :=
  { corpus := [jA, jB],
    search := fun _ n => if n = 5 then .ok [format_joke jA] else .ok ["no such joke"],
    llm := fun _ => .error "timeout", randIdx := 0 }

/-- Environment whose model raises and whose index raises on the
three-result re-query of the outer fallback. -/
def envRequeryDown : Env :=
  { corpus := [jA, jB],
    search := fun _ n => if n = 3 then .error "db down again" else .ok [format_joke jA],
    llm := fun _ => .error "timeout", randIdx := 0 }

/-- Environment whose model extracts the topic Pun. -/
def envCount : Env :=
  { corpus := [jA, jB], search := fun _ _ => .ok [],
    llm := fun _ => .ok (some "Pun"), randIdx := 0 }

/-- Environment whose index returns one reconcilable and one unreconcilable
document. -/
def envExist : Env :=
  { corpus := [jA, jB],
    search := fun _ _ => .ok [format_joke jB, "no such joke"],
    llm := fun _ => .ok none, randIdx := 0 }

/-- C1: in the recommendation branch, when the disambiguation step raises
(model error, timeout, or empty/malformed response, all surfaced as an
error of llmText) and the three-result re-query succeeds, exactly one
llm_failure event is recorded with fallback_used chromadb_direct, each
returned document is reconciled to a corpus record by exact derived-text
match, and the reconciled records are returned with the fixed message and a
success query event whose jokes_count is the number reconciled - also when
that number is zero, since the conclusion holds for every docs3. -/
theorem c1_outer_llm_fallback (env : Env) (msg : String) (docs5 docs3 : List String) (e : String)
    (hmsg : msg ≠ "") (hn : isNsfw msg = false) (hc : env.corpus.isEmpty = false)
    (hcnt : isCountingMsg msg = false) (hex : isExistenceMsg msg = false)
    (h5 : env.search msg 5 = .ok docs5) (hne : docs5.isEmpty = false)
    (hllm : llmText env (recPrompt msg docs5) = .error e)
    (h3 : env.search msg 3 = .ok docs3) :
    ask_ai env msg =
      (.ok "Here\x27s what I found for you:" (docs3.filterMap (reconcile env.corpus)),
       [.llm_failure "llm_selection_error" e "chromadb_direct",
        .query msg .success (docs3.filterMap (reconcile env.corpus)).length none]) := by
  simp [ask_ai, hmsg, hn, hc, hcnt, hex, recommendBranch, h5, hne, hllm, recOuterFallback, h3]

/-- Witness for C1 in which the re-queried document reconciles to nothing,
so the success event carries jokes_count zero. -/
theorem c1_outer_llm_fallback_witness :
    ask_ai envLlmDown "tell me a joke about cats" =
      (.ok "Here\x27s what I found for you:"
         ((["no such joke"] : List String).filterMap (reconcile envLlmDown.corpus)),
       [.llm_failure "llm_selection_error" "timeout" "chromadb_direct",
        .query "tell me a joke about cats" .success
          ((["no such joke"] : List String).filterMap (reconcile envLlmDown.corpus)).length none]) :=
  c1_outer_llm_fallback envLlmDown "tell me a joke about cats"
    [format_joke jA] ["no such joke"] "timeout"
    (by decide) (by decide) (by decide) (by decide) (by decide) rfl rfl rfl rfl

/-- C5: in the counting branch, the reported count is the number of corpus
records whose lowered category or lowered derived text contains the
extracted topic; a positive count yields the exact-count response with
singular/plural agreement, the first three matching records, and a success
query event counting the attached examples, while a zero count yields the
fixed zero response with an empty list and a no_results query event with
zero jokes. -/
theorem c5_counting_branch (env : Env) (msg : String)
    (hmsg : msg ≠ "") (hn : isNsfw msg = false) (hc : env.corpus.isEmpty = false)
    (hcnt : isCountingMsg msg = true) :
    (0 < (countingMatches env.corpus (countingTopic env msg)).length →
      ask_ai env msg =
        (.ok ("I have " ++ toString (countingMatches env.corpus (countingTopic env msg)).length ++
              " " ++ countingTopic env msg ++ " joke" ++
              (if (countingMatches env.corpus (countingTopic env msg)).length != 1 then "s" else "") ++
              " in my collection.")
           ((countingMatches env.corpus (countingTopic env msg)).take 3),
         [.query msg .success ((countingMatches env.corpus (countingTopic env msg)).take 3).length none])) ∧
    ((countingMatches env.corpus (countingTopic env msg)).length = 0 →
      ask_ai env msg =
        (.ok ("I have 0 " ++ countingTopic env msg ++ " jokes in my collection.") [],
         [.query msg .no_results 0 none])) := by
  constructor
  · intro h
    simp [ask_ai, hmsg, hn, hc, hcnt, countingBranch, h]
  · intro h
    simp [ask_ai, hmsg, hn, hc, hcnt, countingBranch, h]

/-- Witness for C5 at a topic with exactly one match. -/
theorem c5_counting_branch_witness :
    ask_ai envCount "how many pun jokes do you have" =
      (.ok ("I have " ++
            toString (countingMatches envCount.corpus (countingTopic envCount "how many pun jokes do you have")).length ++
            " " ++ countingTopic envCount "how many pun jokes do you have" ++ " joke" ++
            (if (countingMatches envCount.corpus (countingTopic envCount "how many pun jokes do you have")).length != 1 then "s" else "") ++
            " in my collection.")
         ((countingMatches envCount.corpus (countingTopic envCount "how many pun jokes do you have")).take 3),
       [.query "how many pun jokes do you have" .success
          ((countingMatches envCount.corpus (countingTopic envCount "how many pun jokes do you have")).take 3).length none]) :=
  (c5_counting_branch envCount "how many pun jokes do you have"
    (by decide) (by decide) (by decide) (by decide)).1 (by decide)

/-- C6: in the existence branch, the first five returned documents are
reconciled by exact derived-text match with unreconcilable documents
skipped; a non-empty reconciliation yields the yes response stating the
reconciled count with singular/plural agreement and at most three example
records, and an empty reconciliation yields the fixed no response with an
empty list. -/
theorem c6_existence_branch (env : Env) (msg : String) (docs : List String)
    (hmsg : msg ≠ "") (hn : isNsfw msg = false) (hc : env.corpus.isEmpty = false)
    (hcnt : isCountingMsg msg = false) (hex : isExistenceMsg msg = true)
    (hs : env.search msg 10 = .ok docs) :
    ((docs.take 5).filterMap (reconcile env.corpus) ≠ [] →
      ask_ai env msg =
        (.ok ("Yes, I found " ++ toString ((docs.take 5).filterMap (reconcile env.corpus)).length ++
              " joke" ++
              (if ((docs.take 5).filterMap (reconcile env.corpus)).length != 1 then "s" else "") ++
              " matching your query. Here are some examples:")
           (((docs.take 5).filterMap (reconcile env.corpus)).take 3), [])) ∧
    ((docs.take 5).filterMap (reconcile env.corpus) = [] →
      ask_ai env msg =
        (.ok "No, I don\x27t have any jokes matching that description in my collection." [], [])) := by
  constructor
  · intro h
    have hd : docs.isEmpty = false := by
      cases docs with
      | nil => simp at h
      | cons a l => rfl
    have hm : ((docs.take 5).filterMap (reconcile env.corpus)).isEmpty = false := by
      cases hq : (docs.take 5).filterMap (reconcile env.corpus) with
      | nil => exact absurd hq h
      | cons a l => rfl
    simp [ask_ai, hmsg, hn, hc, hcnt, hex, existenceBranch, hs, hd, hm]
  · intro h
    have hb : existenceBranch env msg =
        (.ok "No, I don\x27t have any jokes matching that description in my collection." [], []) := by
      unfold existenceBranch
      rw [hs]
      cases hd : docs.isEmpty with
      | true => simp [hd]
      | false => simp [hd, h]
    simp [ask_ai, hmsg, hn, hc, hcnt, hex, hb]

/-- Witness for C6 with one reconcilable document among two. -/
theorem c6_existence_branch_witness :
    ask_ai envExist "do you have any fish jokes?" =
      (.ok ("Yes, I found " ++
            toString ((([format_joke jB, "no such joke"].take 5).filterMap (reconcile envExist.corpus)).length) ++
            " joke" ++
            (if (([format_joke jB, "no such joke"].take 5).filterMap (reconcile envExist.corpus)).length != 1 then "s" else "") ++
            " matching your query. Here are some examples:")
         ((([format_joke jB, "no such joke"].take 5).filterMap (reconcile envExist.corpus)).take 3), []) :=
  (c6_existence_branch envExist "do you have any fish jokes?" [format_joke jB, "no such joke"]
    (by decide) (by decide) (by decide) (by decide) (by decide) rfl).1 (by decide)

/-- Element of the corpus picked by random.choice: the position is the
randomness index reduced modulo the corpus length, so it lies in the list
whenever the list is non-empty. -/
theorem randomChoice_mem (r : Nat) (l : List Joke) (h : l.isEmpty = false) :
    randomChoice r l ∈ l := by
  have hlen : 0 < l.length := by
    cases l with
    | nil => simp at h
    | cons a t => simp
  have hlt : r % l.length < l.length := Nat.mod_lt _ hlen
  have h2 : l.getD (r % l.length) default = l.get ⟨r % l.length, hlt⟩ := by
    simp [List.getD, List.getElem?_eq_getElem hlt]
  rw [randomChoice, h2]
  exact l.get_mem _ _

/-- C8: when the outer fallback of the recommendation branch is entered and
its re-query itself raises, one error query event carrying the raised text
and jokes_count zero is written (after the llm_failure event of the outer
fallback), and the response is the fixed trouble-processing message with
exactly one record drawn from the full corpus at the uniformly random
position given by the randomness index; the corpus is non-empty on this
path, so the empty-list alternative of the source expression does not
occur. -/
theorem c8_inner_fallback (env : Env) (msg : String) (docs5 : List String) (e1 e2 : String)
    (hmsg : msg ≠ "") (hn : isNsfw msg = false) (hc : env.corpus.isEmpty = false)
    (hcnt : isCountingMsg msg = false) (hex : isExistenceMsg msg = false)
    (h5 : env.search msg 5 = .ok docs5) (hne : docs5.isEmpty = false)
    (hllm : llmText env (recPrompt msg docs5) = .error e1)
    (h3 : env.search msg 3 = .error e2) :
    ask_ai env msg =
      (.ok "I\x27m having trouble processing your request. Here\x27s a random joke instead:"
         [randomChoice env.randIdx env.corpus],
       [.llm_failure "llm_selection_error" e1 "chromadb_direct",
        .query msg .error 0 (some e2)]) ∧
    randomChoice env.randIdx env.corpus ∈ env.corpus := by
  constructor
  · simp [ask_ai, hmsg, hn, hc, hcnt, hex, recommendBranch, h5, hne, hllm, recOuterFallback, h3]
  · exact randomChoice_mem env.randIdx env.corpus hc

/-- Witness for C8 with the re-query raising. -/
theorem c8_inner_fallback_witness :
    (ask_ai envRequeryDown "tell me a joke about cats" =
      (.ok "I\x27m having trouble processing your request. Here\x27s a random joke instead:"
         [randomChoice envRequeryDown.randIdx envRequeryDown.corpus],
       [.llm_failure "llm_selection_error" "timeout" "chromadb_direct",
        .query "tell me a joke about cats" .error 0 (some "db down again")])) ∧
    randomChoice envRequeryDown.randIdx envRequeryDown.corpus ∈ envRequeryDown.corpus :=
  c8_inner_fallback envRequeryDown "tell me a joke about cats" [format_joke jA] "timeout" "db down again"
    (by decide) (by decide) (by decide) (by decide) (by decide) rfl rfl rfl rfl

/-- The counting branch writes exactly one query event on each of its two
paths. -/
theorem countingBranch_one_query_event (env : Env) (msg : String) :
    ((countingBranch env msg).2.countP isQueryEvent) = 1 := by
  unfold countingBranch
  dsimp only
  split <;> simp [isQueryEvent]

/-- The outer fallback writes exactly one query event on each of its two
paths (the llm_failure event is not a query event). -/
theorem recOuterFallback_one_query_event (env : Env) (msg : String) (e : String) :
    ((recOuterFallback env msg e).2.countP isQueryEvent) = 1 := by
  unfold recOuterFallback
  split <;> simp [isQueryEvent]

/-- The recommendation branch writes exactly one query event on every
path. -/
theorem recommendBranch_one_query_event (env : Env) (msg : String) :
    ((recommendBranch env msg).2.countP isQueryEvent) = 1 := by
  unfold recommendBranch
  split
  · exact recOuterFallback_one_query_event env msg _
  · split
    · simp [isQueryEvent]
    · split
      · exact recOuterFallback_one_query_event env msg _
      · try dsimp only
        split
        · simp [isQueryEvent]
        · simp [isQueryEvent]

/-- The existence branch writes no query event on any path. -/
theorem existenceBranch_no_query_event (env : Env) (msg : String) :
    ((existenceBranch env msg).2.countP isQueryEvent) = 0 := by
  unfold existenceBranch
  split
  · simp
  · split
    · simp
    · dsimp only
      split
      · simp
      · simp

/-- C3 counterexample: the message is non-empty (it passes input
validation), the corpus is non-empty, and the request is handled by the
existence branch, yet ask_ai writes zero query events, refuting the claim
that exactly one query event is emitted regardless of the branch. -/
theorem c3_counterexample :
    ((ask_ai envPlain "do you have any dad jokes?").2.countP isQueryEvent) = 0 := by
  decide

/-- C3 amended: for every request that passes input validation with a
non-empty corpus, exactly one query event is written when the request is
handled by the safety filter, the counting branch, or the recommendation
branch, while a request handled by the existence branch writes no query
event at all. -/
theorem c3_amended_query_count (env : Env) (msg : String)
    (hmsg : msg ≠ "") (hc : env.corpus.isEmpty = false) :
    (isNsfw msg = true ∨ isCountingMsg msg = true ∨ isExistenceMsg msg = false →
      ((ask_ai env msg).2.countP isQueryEvent) = 1) ∧
    (isNsfw msg = false → isCountingMsg msg = false → isExistenceMsg msg = true →
      ((ask_ai env msg).2.countP isQueryEvent) = 0) := by
  constructor
  · intro h
    by_cases h1 : isNsfw msg = true
    · simp [ask_ai, hmsg, h1, isQueryEvent]
    · have h1f : isNsfw msg = false := by simpa using h1
      by_cases h2 : isCountingMsg msg = true
      · have hq := countingBranch_one_query_event env msg
        simp [ask_ai, hmsg, h1f, hc, h2, hq]
      · have h2f : isCountingMsg msg = false := by simpa using h2
        have h3f : isExistenceMsg msg = false := by
          rcases h with ha | hb | hcc
          · exact absurd ha h1
          · exact absurd hb h2
          · exact hcc
        have hq := recommendBranch_one_query_event env msg
        simp [ask_ai, hmsg, h1f, hc, h2f, h3f, hq]
  · intro h1 h2 h3
    have hq := existenceBranch_no_query_event env msg
    simp [ask_ai, hmsg, h1, hc, h2, h3, hq]

/-- Witness for C3 amended, on a recommendation request whose model answers
with the none token. -/
theorem c3_amended_query_count_witness :
    ((ask_ai envPlain "tell me a joke about cats").2.countP isQueryEvent) = 1 :=
  (c3_amended_query_count envPlain "tell me a joke about cats" (by decide) (by decide)).1
    (by decide)

/-- A prefix of length three of a non-empty list is non-empty. -/
theorem take3_ne_nil {l : List Joke} (h : l ≠ []) : l.take 3 ≠ [] := by
  cases l with
  | nil => exact absurd rfl h
  | cons a t => simp

/-- The zero-count response of the counting branch differs from the
trouble-processing response of the inner fallback for every topic, since
their second characters differ. -/
theorem counting_zero_response_ne (t : String) :
    "I have 0 " ++ t ++ " jokes in my collection." ≠
      "I\x27m having trouble processing your request. Here\x27s a random joke instead:" := by
  intro hEq
  have h1 : ("I have 0 " ++ t ++ " jokes in my collection.").data.get? 1 = some ' ' := rfl
  rw [hEq] at h1
  exact absurd h1 (by decide)

/-- No output of the counting branch is the trouble-processing response
with an empty joke list. -/
theorem countingBranch_trouble (env : Env) (msg : String) (jokes : List Joke)
    (h : (countingBranch env msg).1 =
      .ok "I\x27m having trouble processing your request. Here\x27s a random joke instead:" jokes) :
    jokes ≠ [] := by
  unfold countingBranch at h
  dsimp only at h
  split at h
  case isTrue hpos =>
    injection h with h1 h2
    rw [← h2]
    exact take3_ne_nil (List.length_pos.mp hpos)
  case isFalse hz =>
    injection h with h1 h2
    exact absurd h1 (counting_zero_response_ne _)

/-- No output of the existence branch is the trouble-processing response
with an empty joke list. -/
theorem existenceBranch_trouble (env : Env) (msg : String) (jokes : List Joke)
    (h : (existenceBranch env msg).1 =
      .ok "I\x27m having trouble processing your request. Here\x27s a random joke instead:" jokes) :
    jokes ≠ [] := by
  unfold existenceBranch at h
  split at h
  · injection h with h1 h2
    exact absurd h1 (by decide)
  · split at h
    · injection h with h1 h2
      exact absurd h1 (by decide)
    · dsimp only at h
      split at h
      · injection h with h1 h2
        exact absurd h1 (by decide)
      case isFalse hm =>
        injection h with h1 h2
        rw [← h2]
        apply take3_ne_nil
        simpa using hm

/-- No output of the outer fallback with a non-empty corpus is the
trouble-processing response with an empty joke list. -/
theorem recOuterFallback_trouble (env : Env) (msg : String) (e : String) (jokes : List Joke)
    (hc : env.corpus.isEmpty = false)
    (h : (recOuterFallback env msg e).1 =
      .ok "I\x27m having trouble processing your request. Here\x27s a random joke instead:" jokes) :
    jokes ≠ [] := by
  unfold recOuterFallback at h
  split at h
  · dsimp only at h
    injection h with h1 h2
    exact absurd h1 (by decide)
  · injection h with h1 h2
    rw [← h2]
    simp [hc]

/-- No output of the recommendation branch with a non-empty corpus is the
trouble-processing response with an empty joke list. -/
theorem recommendBranch_trouble (env : Env) (msg : String) (jokes : List Joke)
    (hc : env.corpus.isEmpty = false)
    (h : (recommendBranch env msg).1 =
      .ok "I\x27m having trouble processing your request. Here\x27s a random joke instead:" jokes) :
    jokes ≠ [] := by
  unfold recommendBranch at h
  split at h
  · exact recOuterFallback_trouble env msg _ jokes hc h
  · split at h
    · injection h with h1 h2
      exact absurd h1 (by decide)
    · try dsimp only at h
      split at h
      · exact recOuterFallback_trouble env msg _ jokes hc h
      · try dsimp only at h
        split at h
        · injection h with h1 h2
          exact absurd h1 (by decide)
        · injection h with h1 h2
          exact absurd h1 (by decide)

/-- C10: a validated, non-blocked request against an empty corpus is
answered with the 500 error object and writes no analytics event, for every
environment - the index and the model are never consulted; consequently
every branch of the pipeline runs with a non-empty corpus, and whenever the
response is the trouble-processing message of the inner random-joke
fallback its joke list is non-empty, so the empty-corpus alternative of
that fallback is unreachable. -/
theorem c10_empty_corpus (env : Env) (msg : String) :
    (msg ≠ "" → isNsfw msg = false → env.corpus = [] →
      ask_ai env msg = (.err 500 "No jokes available in the collection", [])) ∧
    (∀ jokes, (ask_ai env msg).1 =
        .ok "I\x27m having trouble processing your request. Here\x27s a random joke instead:" jokes →
      jokes ≠ []) := by
  constructor
  · intro h1 h2 h3
    simp [ask_ai, h1, h2, h3]
  · intro jokes h
    unfold ask_ai at h
    split at h
    · exact absurd h (by simp)
    · split at h
      · dsimp only at h
        injection h with h1 h2
        exact absurd h1 (by decide)
      · split at h
        · exact absurd h (by simp)
        case isFalse hce =>
          have hc : env.corpus.isEmpty = false := by simpa using hce
          split at h
          · exact countingBranch_trouble env msg jokes h
          · split at h
            · exact existenceBranch_trouble env msg jokes h
            · exact recommendBranch_trouble env msg jokes hc h

/-- Witness for C10 at an empty corpus. -/
theorem c10_empty_corpus_witness :
    ask_ai { corpus := [], search := fun _ _ => .ok [], llm := fun _ => .ok none, randIdx := 0 }
        "tell me a joke" =
      (.err 500 "No jokes available in the collection", []) :=
  (c10_empty_corpus
      { corpus := [], search := fun _ _ => .ok [], llm := fun _ => .ok none, randIdx := 0 }
      "tell me a joke").1 (by decide) (by decide) rfl

end JokesBot
